import Mathlib

/-!
Verification development for the rlm-mcp REPL server (`src/rlm_mcp/server.py`).

The development shallowly embeds the execution engine (`REPLEnvironment.execute`),
the worker runner (`_execute_in_process`), and the session-registry operations
(`rlm_reset_session`, the session-replacement step of `rlm_load_file`) of
`server.py`, and proves the behavioural claims about them.

Modelling conventions:
* Python values are abstracted as `PyVal`: an opaque payload string plus the two
  observable attributes the engine branches on — whether `callable(v)` holds and
  whether `pickle.dumps(v)` succeeds.
* Python dicts are association lists (`PyDict`); `dict[k] = v` is `alSet`
  (update in place, insertion order preserved), `del dict[k]` is `alDel`,
  lookup is `alGet?`.
* Executing a code string via `exec` is not interpreted; the submission's
  behaviour is a parameter `CodeSem : PyDict → ExecBehavior` giving, for the
  globals dict the worker builds, either normal completion (final globals,
  captured stdout, captured stderr), a raised exception (type name, message,
  captured stdout/stderr so far), or failure to finish before the timeout
  (carrying the stdout/stderr produced before the kill, which never leave the
  worker).
* `multiprocessing.Queue.put` pickles its payload in a feeder thread; when any
  value in the payload fails to pickle, the item is dropped there and the
  parent finds the queue empty after `join`.  This library behaviour is
  modelled by `payloadPicklable`: a worker outcome is delivered only when every
  variable in it is picklable, otherwise the parent takes the
  "No result from execution" branch (`server.py` lines 197-203).
* Wall-clock fields (`execution_time`, `created_at`) are not modelled; no claim
  mentions them.
-/

/-- Abstraction of a Python runtime value: an opaque payload plus the two
attributes `server.py` branches on (`callable(v)`, and whether
`pickle.dumps(v)` succeeds). -/
structure PyVal where
  data : String
  callable : Bool
  picklable : Bool
deriving DecidableEq

/-- A Python dict with string keys, as an insertion-ordered association list. -/
abbrev PyDict := List (String × PyVal)

/-- Lookup in an association list (Python `d[k]` / `d.get(k)`). -/
def alGet? {α : Type} : List (String × α) → String → Option α
  | [], _ => none
  | (k0, v0) :: rest, k => if k0 = k then some v0 else alGet? rest k

/-- Assignment `d[k] = v` on a Python dict: replace the value in place if the
key exists (keeping its position), otherwise append the new binding. -/
def alSet {α : Type} : List (String × α) → String → α → List (String × α)
  | [], k, v => [(k, v)]
  | (k0, v0) :: rest, k, v =>
    if k0 = k then (k, v) :: rest else (k0, v0) :: alSet rest k v

/-- Deletion `del d[k]` on a Python dict (a no-op if the key is absent,
matching the guarded `if session_id in repl_sessions: del …` uses in
`server.py`). -/
def alDel {α : Type} : List (String × α) → String → List (String × α)
  | [], _ => []
  | (k0, v0) :: rest, k =>
    if k0 = k then rest else (k0, v0) :: alDel rest k

/-- Key list of an association list. -/
def alKeys {α : Type} (d : List (String × α)) : List String :=
  d.map Prod.fst

-- ===========================================================================
-- Configuration (server.py lines 39-43)
-- ===========================================================================

/-- `MAX_EXECUTIONS_PER_SESSION = 10` -/
def MAX_EXECUTIONS_PER_SESSION : Nat := 10

/-- `MAX_OUTPUT_CHARS = 20000` -/
def MAX_OUTPUT_CHARS : Nat := 20000

/-- `MAX_SESSION_RESETS = 2` -/
def MAX_SESSION_RESETS : Nat := 2

/-- `EXECUTION_TIMEOUT = 10.0`; the float renders as `10.0` inside the
timeout message f-string. -/
def EXECUTION_TIMEOUT_STR : String := "10.0"

-- ===========================================================================
-- Code sanitization (server.py lines 126-130)
-- ===========================================================================

/-- Python regex `\w`: a word character.  (Python's `\w` also covers non-ASCII
word characters; the code strings the claims exercise are ASCII.) -/
def isWordChar (c : Char) : Bool := c.isAlphanum || c = '_'

/-- The optional `/` of the regex `</?\w+>`: the text after a `<`, with one
leading `/` consumed if present. -/
def tagTail (l : List Char) : List Char :=
  if l.head? = some '/' then l.tail else l

/-- Attempt to match the tail of the regex `</?\w+>` on the text following a
`<`: an optional `/`, one or more word characters, then `>`.  Returns the text
after the match, or `none` if there is no match here.  `\w+` is greedy and a
word character is never `>`, so the maximal word run is the only candidate. -/
def afterTag (l : List Char) : Option (List Char) :=
  if (tagTail l).takeWhile isWordChar = [] then none
  else if ((tagTail l).dropWhile isWordChar).head? = some '>' then
    some ((tagTail l).dropWhile isWordChar).tail
  else none

/-- Fuelled scanner for `re.sub(r'</?\w+>', '', code)`: at each position, if a
`</?\w+>` match starts here, skip it, otherwise emit the character and move
one position right.  Each step strictly shrinks the text, so any fuel at least
the text's length makes the zero-fuel arm unreachable; fuel is structural
recursion only. -/
def removeTagsAux : Nat → List Char → List Char
  | 0, l => l
  | _ + 1, [] => []
  | fuel + 1, c :: rest =>
    if c = '<' then
      match afterTag rest with
      | some rem => removeTagsAux fuel rem
      | none => c :: removeTagsAux fuel rest
    else c :: removeTagsAux fuel rest

/-- One left-to-right pass removing every non-overlapping occurrence of the
regex `</?\w+>`, modelling `re.sub(r'</?\w+>', '', code)`
(server.py line 127). -/
def removeTags (l : List Char) : List Char :=
  removeTagsAux l.length l

/-- Python `str.split('\\n')` on the character list: split at every newline,
keeping empty pieces. -/
def splitLines : List Char → List (List Char)
  | [] => [[]]
  | c :: rest =>
    if c = '\n' then [] :: splitLines rest
    else
      match splitLines rest with
      | line :: more => (c :: line) :: more
      | [] => [[c]]

/-- Python `'\\n'.join(...)` on character lists. -/
def joinLines : List (List Char) → List Char
  | [] => []
  | [l] => l
  | l :: rest => l ++ '\n' :: joinLines rest

/-- `re.match(r'^\s*</?\w+>\s*$', line)` viewed as a Boolean: the line is
optional whitespace, one tag, optional whitespace (server.py line 129). -/
def isTagOnlyLine (line : List Char) : Bool :=
  let l := line.dropWhile Char.isWhitespace
  if l.head? = some '<' then
    match afterTag l.tail with
    | some rem => rem.all Char.isWhitespace
    | none => false
  else false

/-- Python `str.strip()`: drop leading and trailing whitespace. -/
def pyStrip (l : List Char) : List Char :=
  ((l.dropWhile Char.isWhitespace).reverse.dropWhile Char.isWhitespace).reverse

/-- The code-cleanup pipeline of `REPLEnvironment.execute`
(server.py lines 126-130): strip `</?\w+>` fragments, drop the lines that are
only such a tag, re-join with newlines and strip. -/
def sanitize (code : String) : String :=
  let code1 := removeTags code.data
  let lines := splitLines code1
  let cleaned_lines := lines.filter (fun line => !isTagOnlyLine line)
  String.mk (pyStrip (joinLines cleaned_lines))

-- ===========================================================================
-- Worker runner: _execute_in_process (server.py lines 59-95)
-- ===========================================================================

/-- The `__builtins__` module object seeded into `exec_globals`
(server.py line 65): not callable, not picklable; the engine only ever
branches on its key, never on the value. -/
def builtinsVal : PyVal := { data := "__builtins__-module", callable := false, picklable := false }

/-- Behaviour of one code submission when `exec`uted against a given globals
dict.  `hangs` carries the stdout/stderr text produced before the timeout
kill; that text never crosses the process boundary. -/
inductive ExecBehavior where
  | ok (finals : PyDict) (stdout stderr : String)
  | raised (etype emsg : String) (stdout stderr : String)
  | hangs (stdoutLost stderrLost : String)

/-- Abstract semantics of a code submission: what `exec(code, exec_globals)`
does for each globals dict it may be run against. -/
abbrev CodeSem := PyDict → ExecBehavior

/-- The dict the worker `exec`utes against (server.py lines 65-68):
`{'__builtins__': __builtins__}` plus every non-`__builtins__` entry of the
dict the parent passed in. -/
def workerGlobals (globals_dict : PyDict) : PyDict :=
  globals_dict.foldl
    (fun g kv => if kv.1 ≠ "__builtins__" then alSet g kv.1 kv.2 else g)
    [("__builtins__", builtinsVal)]

/-- The variable snapshot the worker builds after a successful run
(server.py lines 73-79): every binding except `__builtins__` and callables.
Note the `try: result_vars[k] = v / except: result_vars[k] = str(v)` in the
source performs a plain dict assignment, which cannot raise, so the `except`
arm is unreachable: no transferability check happens here. -/
def snapshotOf (finals : PyDict) : PyDict :=
  finals.filter (fun kv => kv.1 != "__builtins__" && !kv.2.callable)

/-- The record `_execute_in_process` puts on the output queue
(server.py lines 81-95).  The source's `variables` key is the `vars` field
(`variables` is reserved in Lean). -/
structure WorkerPayload where
  success : Bool
  output : String
  stderr : String
  error : Option String
  vars : PyDict
deriving DecidableEq

/-- `_execute_in_process` (server.py lines 59-95): build `exec_globals`, run
the code, and put the outcome record on the queue.  `none` models the worker
not finishing before the deadline (it is terminated/killed having put
nothing). -/
def execute_in_process (sem : CodeSem) (globals_dict : PyDict) :
    Option WorkerPayload :=
  match sem (workerGlobals globals_dict) with
  | .ok finals out err =>
    some { success := true, output := out, stderr := err, error := none,
           vars := snapshotOf finals }
  | .raised etype emsg out err =>
    some { success := false, output := out, stderr := err,
           error := some (etype ++ ": " ++ emsg), vars := [] }
  | .hangs _ _ => none

/-- Whether the queue's feeder thread can pickle the outcome record: the
output/stderr/error strings always pickle, so the record transfers exactly
when every variable value in it does. -/
def payloadPicklable (p : WorkerPayload) : Bool :=
  p.vars.all (fun kv => kv.2.picklable)

-- ===========================================================================
-- Execution engine: REPLEnvironment (server.py lines 98-214)
-- ===========================================================================

/-- `ExecutionResult` (server.py lines 50-56).  `execution_time` is wall-clock
and not modelled. -/
structure ExecutionResult where
  output : String
  success : Bool
  error : Option String
deriving DecidableEq

/-- `REPLEnvironment` state (server.py lines 101-107): the `_globals` dict and
the execution counter.  `created_at` is wall-clock and not modelled. -/
structure REPLEnvironment where
  globals : PyDict
  execution_count : Nat
deriving DecidableEq

/-- `REPLEnvironment.__init__` (server.py lines 101-107). -/
def REPLEnvironment.init (context : PyVal) : REPLEnvironment :=
  { globals := [("__builtins__", builtinsVal), ("context", context)],
    execution_count := 0 }

/-- The quota-refusal message (server.py line 121). -/
def sessionLimitMsg : String :=
  "Session limit reached (" ++ toString MAX_EXECUTIONS_PER_SESSION ++
  " executions). STOP here and summarize your findings from the results you already gathered. Do NOT reset the session to re-analyze the same file."

/-- The timeout error message (server.py line 173). -/
def timeoutMsg : String :=
  "TIMEOUT after " ++ EXECUTION_TIMEOUT_STR ++
  "s. Code was killed. Try a completely different approach (avoid loops, use string methods or sampling instead). Do NOT retry the same code."

/-- The empty-queue error message (server.py line 202). -/
def noResultMsg : String := "No result from execution"

/-- The transferable copy of the session namespace sent to the worker
(server.py lines 141-150): skip `__builtins__`, keep each entry whose value
survives the `pickle.dumps` probe, silently omit the rest. -/
def picklableGlobals (g : PyDict) : PyDict :=
  g.filter (fun kv => kv.1 != "__builtins__" && kv.2.picklable)

/-- Merging the worker's variable snapshot into the session namespace
(server.py lines 182-185): `self._globals[k] = v` for every non-`__builtins__`
entry. -/
def mergeVars (g vars : PyDict) : PyDict :=
  vars.foldl
    (fun acc kv => if kv.1 ≠ "__builtins__" then alSet acc kv.1 kv.2 else acc)
    g

/-- Combining captured stdout and stderr (server.py lines 178-180): stderr is
appended under a `[stderr]` label when non-empty. -/
def combineOut (out err : String) : String :=
  if err = "" then out else out ++ "\n[stderr]\n" ++ err

/-- Python `s[:n]`: the first `n` characters (code points). -/
def pySlice (s : String) (n : Nat) : String :=
  String.mk (s.data.take n)

/-- Python `f"{n:,}"`: decimal digits grouped in threes by commas, built from
the reversed digit list. -/
def insertCommasRev : List Char → List Char
  | a :: b :: c :: d :: rest => a :: b :: c :: ',' :: insertCommasRev (d :: rest)
  | l => l

/-- Python `f"{n:,}"` for a natural number. -/
def commaFormat (n : Nat) : String :=
  String.mk ((insertCommasRev (toString n).data.reverse).reverse)

/-- The marker appended on truncation (server.py line 189), carrying the
pre-truncation length `n`. -/
def truncationMarker (n : Nat) : String :=
  "\n\n... [OUTPUT TRUNCATED - " ++ commaFormat n ++ " chars total]"

/-- Output truncation (server.py lines 187-189): when the combined output is
longer than `MAX_OUTPUT_CHARS`, keep the first `MAX_OUTPUT_CHARS` characters
and append the marker. -/
def truncateOutput (output : String) : String :=
  if output.length > MAX_OUTPUT_CHARS then
    pySlice output MAX_OUTPUT_CHARS ++ truncationMarker output.length
  else output

/-- `REPLEnvironment.execute` (server.py lines 113-214): quota check,
increment, sanitize, empty-code short-circuit, transferable-namespace build,
worker run with timeout, merge, truncate.  The worker's behaviour is the
`sem` parameter; `execute_in_process … = none` is the timeout path, a
delivered-but-unpicklable payload is the empty-queue ("No result") path. -/
def REPLEnvironment.execute (env : REPLEnvironment) (code : String)
    (sem : CodeSem) : ExecutionResult × REPLEnvironment :=
  if env.execution_count ≥ MAX_EXECUTIONS_PER_SESSION then
    ({ output := "", success := false, error := some sessionLimitMsg }, env)
  else
    let env1 : REPLEnvironment :=
      { env with execution_count := env.execution_count + 1 }
    if sanitize code = "" then
      ({ output := "(empty code)", success := true, error := none }, env1)
    else
      match execute_in_process sem (picklableGlobals env1.globals) with
      | none =>
        ({ output := "", success := false, error := some timeoutMsg }, env1)
      | some result =>
        if payloadPicklable result then
          let output := combineOut result.output result.stderr
          let env2 : REPLEnvironment :=
            { env1 with globals := mergeVars env1.globals result.vars }
          ({ output := truncateOutput output, success := result.success,
             error := result.error }, env2)
        else
          ({ output := "", success := false, error := some noResultMsg }, env1)

/-- The globals dict handed to `multiprocessing.Process` for a run against
`env` (server.py lines 141-156). -/
def workerSeed (env : REPLEnvironment) : PyDict :=
  workerGlobals (picklableGlobals env.globals)

/-- A sequence of `run` calls against one session, threading the state. -/
def runCalls (env : REPLEnvironment) (subs : List (String × CodeSem)) :
    REPLEnvironment :=
  subs.foldl (fun e s => (REPLEnvironment.execute e s.1 s.2).2) env

-- ===========================================================================
-- Session registry (server.py lines 221-230, 379-384, 506-517)
-- ===========================================================================

/-- The module-level registry state: `repl_sessions` and
`session_reset_counts` (server.py lines 222-223). -/
structure ServerState where
  repl_sessions : List (String × REPLEnvironment)
  session_reset_counts : List (String × Nat)
deriving DecidableEq

/-- The registry at server start: both dicts empty. -/
def initialServerState : ServerState :=
  { repl_sessions := [], session_reset_counts := [] }

/-- `session_reset_counts.get(session_id, 0)` (server.py line 510). -/
def resetCountOf (st : ServerState) (sid : String) : Nat :=
  (alGet? st.session_reset_counts sid).getD 0

/-- The reset-refusal message (server.py line 512). -/
def resetLimitMsg (sid : String) : String :=
  "⚠️ Reset limit reached (" ++ toString MAX_SESSION_RESETS ++
  " resets for session \x27" ++ sid ++
  "\x27). You have enough data — STOP and summarize your findings now. Do NOT attempt further resets."

/-- The reset-success message (server.py line 517). -/
def resetOkMsg (sid : String) (n : Nat) : String :=
  "✓ Session \x27" ++ sid ++ "\x27 reset (" ++ toString n ++ "/" ++
  toString MAX_SESSION_RESETS ++ " resets used). Load a file to continue."

/-- The `rlm_reset_session` branch of `call_tool` (server.py lines 506-517):
refuse at the reset quota; otherwise bump the tracked count, delete the
session state if present, and report success. -/
def resetSessionTool (st : ServerState) (sid : String) : String × ServerState :=
  let reset_count := resetCountOf st sid
  if reset_count ≥ MAX_SESSION_RESETS then
    (resetLimitMsg sid, st)
  else
    (resetOkMsg sid (reset_count + 1),
     { repl_sessions := alDel st.repl_sessions sid,
       session_reset_counts :=
         alSet st.session_reset_counts sid (reset_count + 1) })

/-- `get_or_create_session` (server.py lines 226-230). -/
def get_or_create_session (sessions : List (String × REPLEnvironment))
    (sid : String) (context : PyVal) :
    List (String × REPLEnvironment) × REPLEnvironment :=
  match alGet? sessions sid with
  | some env => (sessions, env)
  | none =>
    (alSet sessions sid (REPLEnvironment.init context),
     REPLEnvironment.init context)

/-- The session-replacement step of `rlm_load_file` (server.py lines 378-384):
delete any existing session for the id, create a fresh one seeded with the
content, then bind `context_length` and `file_path` in its globals.  (In
Python the globals mutation aliases the stored environment; here the updated
environment is stored back.) -/
def loadFileReplace (st : ServerState) (sid : String)
    (content contentLen filePath : PyVal) : ServerState :=
  let sessions := alDel st.repl_sessions sid
  let created := get_or_create_session sessions sid content
  let g2 := alSet (alSet created.2.globals "context_length" contentLen) "file_path" filePath
  let env := { created.2 with globals := g2 }
  { st with repl_sessions := alSet created.1 sid env }

/-- A sequence of `rlm_reset_session` calls, threading the registry state. -/
def runResets (st : ServerState) (sids : List String) : ServerState :=
  sids.foldl (fun s sid => (resetSessionTool s sid).2) st

-- ===========================================================================
-- Concrete values used by witnesses and counterexamples
-- ===========================================================================

/-- A picklable, non-callable string value (a loaded file's content). -/
def demoCtx : PyVal := { data := "ctx", callable := false, picklable := true }

/-- A picklable, non-callable int-like value. -/
def intVal : PyVal := { data := "42", callable := false, picklable := true }

/-- A non-callable value that fails the `pickle.dumps` probe (an open file
handle). -/
def fileVal : PyVal := { data := "file-handle", callable := false, picklable := false }

/-- A fresh session environment seeded with `demoCtx`. -/
def demoEnv : REPLEnvironment := REPLEnvironment.init demoCtx

/-- A 20 001-character output string. -/
def bigOut : String := String.mk (List.replicate 20001 'a')

/-- A submission that completes normally, binding nothing and printing
`bigOut`. -/
def C2sem : CodeSem := fun _ => ExecBehavior.ok [] bigOut ""

/-- A submission that completes normally, binding `x` to an unpicklable
value. -/
def C1sem : CodeSem := fun _ => ExecBehavior.ok [("x", fileVal)] "" ""

/-- A submission that completes normally, binding `x` to a picklable int. -/
def okSemX : CodeSem := fun _ => ExecBehavior.ok [("x", intVal)] "" ""

/-- A submission that never finishes (an infinite loop), having printed some
text before the kill. -/
def hangSem : CodeSem := fun _ => ExecBehavior.hangs "text printed before the kill" ""

/-- A submission that raises `ValueError: bad value` after printing. -/
def raiseSem : CodeSem := fun _ =>
  ExecBehavior.raised "ValueError" "bad value" "printed before the raise" ""

/-- An environment whose execution quota is exhausted. -/
def envAtQuota : REPLEnvironment :=
  { globals := [("__builtins__", builtinsVal), ("context", demoCtx)],
    execution_count := MAX_EXECUTIONS_PER_SESSION }

/-- A registry with one live session and no resets recorded. -/
def st0 : ServerState :=
  { repl_sessions := [("default", demoEnv)], session_reset_counts := [] }

/-- A registry whose `default` session has exhausted its reset quota. -/
def stAtLimit : ServerState :=
  { repl_sessions := [("default", demoEnv)],
    session_reset_counts := [("default", MAX_SESSION_RESETS)] }

/-- A registry with a recorded reset count but no live session state. -/
def stNoSession : ServerState :=
  { repl_sessions := [], session_reset_counts := [("s", 1)] }

-- ===========================================================================
-- Association-list lemmas
-- ===========================================================================

theorem alGet?_alSet_self {α : Type} (d : List (String × α)) (k : String) (v : α) :
    alGet? (alSet d k v) k = some v := by
  induction d with
  | nil => simp [alSet, alGet?]
  | cons kv rest ih =>
    obtain ⟨k0, v0⟩ := kv
    by_cases h : k0 = k
    · subst h
      simp [alSet, alGet?]
    · simp [alSet, alGet?, h, ih]

theorem alGet?_alSet_ne {α : Type} (d : List (String × α)) {k k' : String} (v : α)
    (h : k' ≠ k) : alGet? (alSet d k v) k' = alGet? d k' := by
  have hks : k ≠ k' := Ne.symm h
  induction d with
  | nil => simp [alSet, alGet?, hks]
  | cons kv rest ih =>
    obtain ⟨k0, v0⟩ := kv
    by_cases h0 : k0 = k
    · subst h0
      simp [alSet, alGet?, hks]
    · simp only [alSet, if_neg h0, alGet?]
      by_cases h1 : k0 = k'
      · simp [h1]
      · simp [h1, ih]

theorem alGet?_mem {α : Type} {d : List (String × α)} {k : String} {v : α}
    (h : alGet? d k = some v) : (k, v) ∈ d := by
  induction d with
  | nil => simp [alGet?] at h
  | cons kv rest ih =>
    obtain ⟨k0, v0⟩ := kv
    by_cases h0 : k0 = k
    · subst h0
      simp [alGet?] at h
      simp [h]
    · simp [alGet?, h0] at h
      simp [ih h]

theorem alGet?_filter {α : Type} {d : List (String × α)} {k : String} {v : α}
    (p : String × α → Bool) (h : alGet? d k = some v) (hp : p (k, v) = true) :
    alGet? (d.filter p) k = some v := by
  induction d with
  | nil => simp [alGet?] at h
  | cons kv rest ih =>
    obtain ⟨k0, v0⟩ := kv
    by_cases h0 : k0 = k
    · subst h0
      simp [alGet?] at h
      subst h
      simp [List.filter, hp, alGet?]
    · simp [alGet?, h0] at h
      by_cases hkeep : p (k0, v0)
      · simp [List.filter, hkeep, alGet?, h0, ih h]
      · simp only [List.filter]
        rw [show (p (k0, v0)) = false by simpa using hkeep]
        exact ih h

theorem alGet?_alDel_self {α : Type} {d : List (String × α)} {k : String}
    (hnd : (alKeys d).Nodup) : alGet? (alDel d k) k = none := by
  induction d with
  | nil => simp [alDel, alGet?]
  | cons kv rest ih =>
    obtain ⟨k0, v0⟩ := kv
    simp only [alKeys, List.map_cons, List.nodup_cons] at hnd
    by_cases h0 : k0 = k
    · subst h0
      simp only [alDel, if_pos rfl]
      cases hfind : alGet? rest k0 with
      | none => exact hfind
      | some w =>
        exact absurd (List.mem_map_of_mem Prod.fst (alGet?_mem hfind)) hnd.1
    · simp [alDel, h0, alGet?, ih hnd.2]

theorem alGet?_alDel_ne {α : Type} (d : List (String × α)) {k k' : String}
    (h : k' ≠ k) : alGet? (alDel d k) k' = alGet? d k' := by
  have hks : k ≠ k' := Ne.symm h
  induction d with
  | nil => simp [alDel]
  | cons kv rest ih =>
    obtain ⟨k0, v0⟩ := kv
    by_cases h0 : k0 = k
    · subst h0
      simp [alDel, alGet?, hks]
    · simp only [alDel, if_neg h0, alGet?]
      by_cases h1 : k0 = k'
      · simp [h1]
      · simp [h1, ih]

-- ===========================================================================
-- mergeVars lemmas
-- ===========================================================================

theorem mergeVars_nil (g : PyDict) : mergeVars g [] = g := rfl

theorem mergeVars_cons (g : PyDict) (k0 : String) (v0 : PyVal) (rest : PyDict) :
    mergeVars g ((k0, v0) :: rest) =
      mergeVars (if k0 ≠ "__builtins__" then alSet g k0 v0 else g) rest := by
  simp only [mergeVars, List.foldl_cons]

theorem mergeVars_lookup_not_mem {vars : PyDict} {k : String}
    (h : k ∉ alKeys vars) (g : PyDict) :
    alGet? (mergeVars g vars) k = alGet? g k := by
  induction vars generalizing g with
  | nil => rfl
  | cons kv rest ih =>
    obtain ⟨k0, v0⟩ := kv
    simp only [alKeys, List.map_cons, List.mem_cons] at h
    push_neg at h
    rw [mergeVars_cons]
    by_cases hb : k0 = "__builtins__"
    · rw [if_neg (by simp [hb])]
      exact ih (by simpa [alKeys] using h.2) g
    · rw [if_pos hb]
      rw [ih (by simpa [alKeys] using h.2) (alSet g k0 v0)]
      exact alGet?_alSet_ne g v0 h.1

theorem mergeVars_lookup {vars : PyDict} {k : String} {v : PyVal}
    (hnd : (alKeys vars).Nodup) (hk : alGet? vars k = some v)
    (hb : k ≠ "__builtins__") (g : PyDict) :
    alGet? (mergeVars g vars) k = some v := by
  induction vars generalizing g with
  | nil => simp [alGet?] at hk
  | cons kv rest ih =>
    obtain ⟨k0, v0⟩ := kv
    simp only [alKeys, List.map_cons, List.nodup_cons] at hnd
    by_cases h0 : k0 = k
    · subst h0
      simp [alGet?] at hk
      subst hk
      rw [mergeVars_cons, if_pos hb]
      rw [mergeVars_lookup_not_mem (by simpa [alKeys] using hnd.1) (alSet g k0 v0)]
      exact alGet?_alSet_self g k0 v0
    · simp only [alGet?, if_neg h0] at hk
      rw [mergeVars_cons]
      by_cases hb0 : k0 = "__builtins__"
      · rw [if_neg (by simp [hb0])]
        exact ih hnd.2 hk g
      · rw [if_pos hb0]
        exact ih hnd.2 hk (alSet g k0 v0)

-- ===========================================================================
-- Truncation lemmas
-- ===========================================================================

theorem pySlice_length (s : String) (n : Nat) :
    (pySlice s n).length = min n s.length := by
  show (s.data.take n).length = min n s.data.length
  exact List.length_take ..

theorem truncateOutput_of_big {s : String} (h : MAX_OUTPUT_CHARS < s.length) :
    truncateOutput s = pySlice s MAX_OUTPUT_CHARS ++ truncationMarker s.length ∧
    (truncateOutput s).length =
      MAX_OUTPUT_CHARS + (truncationMarker s.length).length := by
  have ht : truncateOutput s =
      pySlice s MAX_OUTPUT_CHARS ++ truncationMarker s.length := by
    unfold truncateOutput
    rw [if_pos h]
  refine ⟨ht, ?_⟩
  rw [ht, String.length_append, pySlice_length,
    Nat.min_eq_left (Nat.le_of_lt h)]

theorem bigOut_length : bigOut.length = 20001 := by
  show (List.replicate 20001 'a').length = 20001
  exact List.length_replicate ..

-- ===========================================================================
-- Branch lemmas for REPLEnvironment.execute
-- ===========================================================================

theorem execute_at_quota (env : REPLEnvironment) (code : String) (sem : CodeSem)
    (h : MAX_EXECUTIONS_PER_SESSION ≤ env.execution_count) :
    env.execute code sem =
      ({ output := "", success := false, error := some sessionLimitMsg }, env) := by
  unfold REPLEnvironment.execute
  rw [if_pos h]

theorem execute_empty (env : REPLEnvironment) (code : String) (sem : CodeSem)
    (h1 : env.execution_count < MAX_EXECUTIONS_PER_SESSION)
    (h2 : sanitize code = "") :
    env.execute code sem =
      ({ output := "(empty code)", success := true, error := none },
       { env with execution_count := env.execution_count + 1 }) := by
  unfold REPLEnvironment.execute
  rw [if_neg (Nat.not_le.mpr h1), if_pos h2]

theorem execute_hangs (env : REPLEnvironment) (code : String) (sem : CodeSem)
    {o e : String}
    (h1 : env.execution_count < MAX_EXECUTIONS_PER_SESSION)
    (h2 : sanitize code ≠ "")
    (h3 : sem (workerSeed env) = ExecBehavior.hangs o e) :
    env.execute code sem =
      ({ output := "", success := false, error := some timeoutMsg },
       { env with execution_count := env.execution_count + 1 }) := by
  unfold REPLEnvironment.execute
  rw [if_neg (Nat.not_le.mpr h1)]
  simp only [if_neg h2]
  have hip : execute_in_process sem
      (picklableGlobals ({ env with execution_count := env.execution_count + 1 } : REPLEnvironment).globals) = none := by
    show execute_in_process sem (picklableGlobals env.globals) = none
    unfold execute_in_process
    rw [show workerGlobals (picklableGlobals env.globals) = workerSeed env from rfl, h3]
  rw [hip]

theorem execute_raised (env : REPLEnvironment) (code : String) (sem : CodeSem)
    {etype emsg out err : String}
    (h1 : env.execution_count < MAX_EXECUTIONS_PER_SESSION)
    (h2 : sanitize code ≠ "")
    (h3 : sem (workerSeed env) = ExecBehavior.raised etype emsg out err) :
    env.execute code sem =
      ({ output := truncateOutput (combineOut out err), success := false,
         error := some (etype ++ ": " ++ emsg) },
       { env with execution_count := env.execution_count + 1 }) := by
  unfold REPLEnvironment.execute
  rw [if_neg (Nat.not_le.mpr h1)]
  simp only [if_neg h2]
  have hip : execute_in_process sem
      (picklableGlobals ({ env with execution_count := env.execution_count + 1 } : REPLEnvironment).globals) =
      some { success := false, output := out, stderr := err,
             error := some (etype ++ ": " ++ emsg), vars := [] } := by
    show execute_in_process sem (picklableGlobals env.globals) = _
    unfold execute_in_process
    rw [show workerGlobals (picklableGlobals env.globals) = workerSeed env from rfl, h3]
  rw [hip]
  simp only [payloadPicklable, List.all_nil, if_pos rfl]
  rfl

theorem execute_ok_delivered (env : REPLEnvironment) (code : String) (sem : CodeSem)
    {finals : PyDict} {out err : String}
    (h1 : env.execution_count < MAX_EXECUTIONS_PER_SESSION)
    (h2 : sanitize code ≠ "")
    (h3 : sem (workerSeed env) = ExecBehavior.ok finals out err)
    (hpick : (snapshotOf finals).all (fun kv => kv.2.picklable) = true) :
    env.execute code sem =
      ({ output := truncateOutput (combineOut out err), success := true,
         error := none },
       { globals := mergeVars env.globals (snapshotOf finals),
         execution_count := env.execution_count + 1 }) := by
  unfold REPLEnvironment.execute
  rw [if_neg (Nat.not_le.mpr h1)]
  simp only [if_neg h2]
  have hip : execute_in_process sem
      (picklableGlobals ({ env with execution_count := env.execution_count + 1 } : REPLEnvironment).globals) =
      some { success := true, output := out, stderr := err,
             error := none, vars := snapshotOf finals } := by
    show execute_in_process sem (picklableGlobals env.globals) = _
    unfold execute_in_process
    rw [show workerGlobals (picklableGlobals env.globals) = workerSeed env from rfl, h3]
  rw [hip]
  simp only [payloadPicklable] at hpick ⊢
  rw [if_pos hpick]

theorem execute_ok_unpicklable (env : REPLEnvironment) (code : String) (sem : CodeSem)
    {finals : PyDict} {out err : String}
    (h1 : env.execution_count < MAX_EXECUTIONS_PER_SESSION)
    (h2 : sanitize code ≠ "")
    (h3 : sem (workerSeed env) = ExecBehavior.ok finals out err)
    (hpick : (snapshotOf finals).all (fun kv => kv.2.picklable) = false) :
    env.execute code sem =
      ({ output := "", success := false, error := some noResultMsg },
       { env with execution_count := env.execution_count + 1 }) := by
  unfold REPLEnvironment.execute
  rw [if_neg (Nat.not_le.mpr h1)]
  simp only [if_neg h2]
  have hip : execute_in_process sem
      (picklableGlobals ({ env with execution_count := env.execution_count + 1 } : REPLEnvironment).globals) =
      some { success := true, output := out, stderr := err,
             error := none, vars := snapshotOf finals } := by
    show execute_in_process sem (picklableGlobals env.globals) = _
    unfold execute_in_process
    rw [show workerGlobals (picklableGlobals env.globals) = workerSeed env from rfl, h3]
  rw [hip]
  simp only [payloadPicklable] at hpick ⊢
  rw [if_neg (by simp [hpick])]

theorem execute_delivered (env : REPLEnvironment) (code : String)
    (sem : CodeSem) (p : WorkerPayload)
    (h1 : env.execution_count < MAX_EXECUTIONS_PER_SESSION)
    (h2 : sanitize code ≠ "")
    (h3 : execute_in_process sem (picklableGlobals env.globals) = some p)
    (hpick : payloadPicklable p = true) :
    env.execute code sem =
      ({ output := truncateOutput (combineOut p.output p.stderr),
         success := p.success, error := p.error },
       { globals := mergeVars env.globals p.vars,
         execution_count := env.execution_count + 1 }) := by
  unfold REPLEnvironment.execute
  rw [if_neg (Nat.not_le.mpr h1)]
  simp only [if_neg h2]
  have h3' : execute_in_process sem
      (picklableGlobals ({ env with execution_count := env.execution_count + 1 } : REPLEnvironment).globals) = some p := h3
  rw [h3']
  simp only [hpick, if_true]

-- ===========================================================================
-- Execution-count lemmas
-- ===========================================================================

theorem execute_count_lt (env : REPLEnvironment) (code : String) (sem : CodeSem)
    (h1 : env.execution_count < MAX_EXECUTIONS_PER_SESSION) :
    (env.execute code sem).2.execution_count = env.execution_count + 1 := by
  by_cases h2 : sanitize code = ""
  · rw [execute_empty env code sem h1 h2]
  · cases h3 : sem (workerSeed env) with
    | ok finals out err =>
      cases hpick : (snapshotOf finals).all (fun kv => kv.2.picklable) with
      | true => rw [execute_ok_delivered env code sem h1 h2 h3 hpick]
      | false => rw [execute_ok_unpicklable env code sem h1 h2 h3 hpick]
    | raised etype emsg out err => rw [execute_raised env code sem h1 h2 h3]
    | hangs o e => rw [execute_hangs env code sem h1 h2 h3]

theorem execute_count_le (env : REPLEnvironment) (code : String) (sem : CodeSem)
    (h : env.execution_count ≤ MAX_EXECUTIONS_PER_SESSION) :
    (env.execute code sem).2.execution_count ≤ MAX_EXECUTIONS_PER_SESSION := by
  by_cases hq : MAX_EXECUTIONS_PER_SESSION ≤ env.execution_count
  · rw [execute_at_quota env code sem hq]
    exact h
  · rw [execute_count_lt env code sem (Nat.lt_of_not_le hq)]
    omega

theorem runCalls_cons (env : REPLEnvironment) (s : String × CodeSem)
    (subs : List (String × CodeSem)) :
    runCalls env (s :: subs) = runCalls (env.execute s.1 s.2).2 subs := rfl

theorem runCalls_count (subs : List (String × CodeSem)) :
    ∀ env : REPLEnvironment,
    env.execution_count + subs.length ≤ MAX_EXECUTIONS_PER_SESSION →
    (runCalls env subs).execution_count = env.execution_count + subs.length := by
  induction subs with
  | nil =>
    intro env h
    simp [runCalls]
  | cons s rest ih =>
    intro env h
    simp only [List.length_cons] at h ⊢
    have hlt : env.execution_count < MAX_EXECUTIONS_PER_SESSION := by omega
    have hcnt := execute_count_lt env s.1 s.2 hlt
    rw [runCalls_cons, ih _ (by rw [hcnt]; omega), hcnt]
    omega

theorem runCalls_count_le (subs : List (String × CodeSem)) :
    ∀ env : REPLEnvironment,
    env.execution_count ≤ MAX_EXECUTIONS_PER_SESSION →
    (runCalls env subs).execution_count ≤ MAX_EXECUTIONS_PER_SESSION := by
  induction subs with
  | nil => intro env h; exact h
  | cons s rest ih =>
    intro env h
    exact ih _ (execute_count_le env s.1 s.2 h)

-- ===========================================================================
-- Reset-tool lemmas
-- ===========================================================================

theorem resetSessionTool_at_quota (st : ServerState) (sid : String)
    (h : MAX_SESSION_RESETS ≤ resetCountOf st sid) :
    resetSessionTool st sid = (resetLimitMsg sid, st) := by
  simp only [resetSessionTool]
  rw [if_pos h]

theorem resetSessionTool_ok (st : ServerState) (sid : String)
    (h : resetCountOf st sid < MAX_SESSION_RESETS) :
    resetSessionTool st sid =
      (resetOkMsg sid (resetCountOf st sid + 1),
       { repl_sessions := alDel st.repl_sessions sid,
         session_reset_counts :=
           alSet st.session_reset_counts sid (resetCountOf st sid + 1) }) := by
  simp only [resetSessionTool]
  rw [if_neg (Nat.not_le.mpr h)]

theorem resetCount_preserved (st : ServerState) (sid : String) (s : String)
    (h : ∀ s2, resetCountOf st s2 ≤ MAX_SESSION_RESETS) :
    resetCountOf (resetSessionTool st sid).2 s ≤ MAX_SESSION_RESETS := by
  by_cases hq : MAX_SESSION_RESETS ≤ resetCountOf st sid
  · rw [resetSessionTool_at_quota st sid hq]
    exact h s
  · have hlt := Nat.lt_of_not_le hq
    rw [resetSessionTool_ok st sid hlt]
    by_cases hs : s = sid
    · subst hs
      show (alGet? (alSet st.session_reset_counts s (resetCountOf st s + 1)) s).getD 0 ≤
        MAX_SESSION_RESETS
      rw [alGet?_alSet_self]
      show resetCountOf st s + 1 ≤ MAX_SESSION_RESETS
      omega
    · show (alGet? (alSet st.session_reset_counts sid (resetCountOf st sid + 1)) s).getD 0 ≤
        MAX_SESSION_RESETS
      rw [alGet?_alSet_ne _ _ hs]
      exact h s

theorem runResets_le (sids : List String) :
    ∀ st : ServerState, (∀ s, resetCountOf st s ≤ MAX_SESSION_RESETS) →
    ∀ s, resetCountOf (runResets st sids) s ≤ MAX_SESSION_RESETS := by
  induction sids with
  | nil => intro st h; exact h
  | cons sid rest ih =>
    intro st h
    exact ih (resetSessionTool st sid).2 (fun s2 => resetCount_preserved st sid s2 h)

-- ===========================================================================
-- Claims
-- ===========================================================================

/-- C1, counterexample.  The claim says a non-callable value that fails the
cross-process transfer check is silently dropped from the worker's
variable_snapshot and never surfaced as an error.  On the code this is false:
the worker's snapshot filters only callables, so the unpicklable binding
`x = fileVal` IS in the snapshot sent back, and the resulting transfer failure
IS surfaced — `execute` returns failure with error "No result from execution"
rather than a snapshot with `x` dropped. -/
theorem C1_counterexample :
    execute_in_process C1sem (picklableGlobals demoEnv.globals) =
      some { success := true, output := "", stderr := "", error := none,
             vars := [("x", fileVal)] } ∧
    (demoEnv.execute "x = fopen()" C1sem).1.error = some noResultMsg ∧
    (demoEnv.execute "x = fopen()" C1sem).1.success = false := by
  refine ⟨by decide, by decide, by decide⟩

/-- C1 (amended): the worker snapshot excludes only callables and performs no
transfer check; when a snapshot contains a value that fails the transfer
check, the whole outcome is lost in transfer and `execute` surfaces a
"No result from execution" failure, merging nothing — so the untransferable
value (and everything else bound by that run) still never persists into the
session's namespace. -/
theorem C1_transfer_failure (env : REPLEnvironment) (code : String)
    (sem : CodeSem) (finals : PyDict) (out err : String)
    (h1 : env.execution_count < MAX_EXECUTIONS_PER_SESSION)
    (h2 : sanitize code ≠ "")
    (h3 : sem (workerSeed env) = ExecBehavior.ok finals out err)
    (hbad : (snapshotOf finals).all (fun kv => kv.2.picklable) = false) :
    (env.execute code sem).1 =
      { output := "", success := false, error := some noResultMsg } ∧
    (env.execute code sem).2.globals = env.globals := by
  rw [execute_ok_unpicklable env code sem h1 h2 h3 hbad]
  exact ⟨rfl, rfl⟩

theorem C1_transfer_failure_witness :
    (demoEnv.execute "x = fopen2()" C1sem).1 =
      { output := "", success := false, error := some noResultMsg } ∧
    (demoEnv.execute "x = fopen2()" C1sem).2.globals = demoEnv.globals :=
  C1_transfer_failure demoEnv "x = fopen2()" C1sem [("x", fileVal)] "" ""
    (by decide) (by decide) rfl rfl

/-- C2, counterexample.  The claim says `ExecutionResult.output` never exceeds
`MAX_OUTPUT_CHARS`.  On the code this is false: truncation keeps the first
`MAX_OUTPUT_CHARS` characters and then appends the marker, so a run printing
20 001 characters returns an output strictly longer than the maximum. -/
theorem C2_counterexample :
    MAX_OUTPUT_CHARS <
      (demoEnv.execute "print(context * 7000)" C2sem).1.output.length := by
  have hred : (demoEnv.execute "print(context * 7000)" C2sem).1.output =
      truncateOutput (combineOut bigOut "") := by
    rw [execute_ok_delivered demoEnv "print(context * 7000)" C2sem
      (by decide) (by decide) rfl rfl]
  have hco : combineOut bigOut "" = bigOut := rfl
  have hb : MAX_OUTPUT_CHARS < bigOut.length := by
    rw [bigOut_length]
    decide
  have hm : 0 < (truncationMarker bigOut.length).length := by
    rw [bigOut_length]
    decide
  rw [hred, hco, (truncateOutput_of_big hb).2]
  omega

/-- C2 (amended): when a completed execution's combined output (stdout plus
the labeled stderr section) exceeds `MAX_OUTPUT_CHARS`, the returned output is
the first `MAX_OUTPUT_CHARS` characters followed by the truncation marker
carrying the true original length; its total length is `MAX_OUTPUT_CHARS` plus
the marker's length (so it exceeds the configured maximum by exactly the
marker). -/
theorem C2_truncation (env : REPLEnvironment) (code : String) (sem : CodeSem)
    (p : WorkerPayload)
    (h1 : env.execution_count < MAX_EXECUTIONS_PER_SESSION)
    (h2 : sanitize code ≠ "")
    (h3 : execute_in_process sem (picklableGlobals env.globals) = some p)
    (hpick : payloadPicklable p = true)
    (hbig : MAX_OUTPUT_CHARS < (combineOut p.output p.stderr).length) :
    (env.execute code sem).1.output =
      pySlice (combineOut p.output p.stderr) MAX_OUTPUT_CHARS ++
        truncationMarker (combineOut p.output p.stderr).length ∧
    (env.execute code sem).1.output.length =
      MAX_OUTPUT_CHARS +
        (truncationMarker (combineOut p.output p.stderr).length).length := by
  rw [execute_delivered env code sem p h1 h2 h3 hpick]
  exact truncateOutput_of_big hbig

set_option maxRecDepth 4000 in
theorem C2_truncation_witness :
    (demoEnv.execute "print(context)" C2sem).1.output =
      pySlice (combineOut bigOut "") MAX_OUTPUT_CHARS ++
        truncationMarker (combineOut bigOut "").length :=
  (C2_truncation demoEnv "print(context)" C2sem
    { success := true, output := bigOut, stderr := "", error := none, vars := [] }
    (by decide) (by decide) rfl rfl
    (by rw [show combineOut bigOut "" = bigOut from rfl, bigOut_length]; decide)).1

/-- C3: the execution counter counts executed `run` calls exactly — after
`N ≤ MAX_EXECUTIONS_PER_SESSION` calls on a fresh session it equals `N`, it
never exceeds the quota, and a call made with the counter at the quota returns
the refusal result and leaves the environment (counter and namespace)
completely unchanged, consulting nothing else. -/
theorem C3_execution_quota (ctx : PyVal) (subs : List (String × CodeSem))
    (hN : subs.length ≤ MAX_EXECUTIONS_PER_SESSION) :
    (runCalls (REPLEnvironment.init ctx) subs).execution_count = subs.length ∧
    (∀ subs2 : List (String × CodeSem),
      (runCalls (REPLEnvironment.init ctx) subs2).execution_count ≤
        MAX_EXECUTIONS_PER_SESSION) ∧
    (∀ (env : REPLEnvironment) (code : String) (sem : CodeSem),
      env.execution_count = MAX_EXECUTIONS_PER_SESSION →
      env.execute code sem =
        ({ output := "", success := false, error := some sessionLimitMsg }, env)) := by
  refine ⟨?_, ?_, ?_⟩
  · have h0 : (REPLEnvironment.init ctx).execution_count = 0 := rfl
    have h := runCalls_count subs (REPLEnvironment.init ctx) (by rw [h0]; omega)
    rw [h0] at h
    simpa using h
  · intro subs2
    exact runCalls_count_le subs2 (REPLEnvironment.init ctx) (Nat.zero_le _)
  · intro env code sem h
    exact execute_at_quota env code sem (le_of_eq h.symm)

theorem C3_execution_quota_witness :
    (runCalls (REPLEnvironment.init demoCtx) [("x = 1", okSemX)]).execution_count = 1 ∧
    envAtQuota.execute "y = 2" okSemX =
      ({ output := "", success := false, error := some sessionLimitMsg },
       envAtQuota) := by
  have h := C3_execution_quota demoCtx [("x = 1", okSemX)] (by decide)
  exact ⟨h.1, h.2.2 envAtQuota "y = 2" okSemX rfl⟩

/-- C4: a run whose worker does not finish by the deadline returns
success=false with the timeout error, and the session's variable namespace is
exactly as it was before the call — nothing from the killed worker is
merged. -/
theorem C4_timeout_frame (env : REPLEnvironment) (code : String) (sem : CodeSem)
    (o e : String)
    (h1 : env.execution_count < MAX_EXECUTIONS_PER_SESSION)
    (h2 : sanitize code ≠ "")
    (h3 : sem (workerSeed env) = ExecBehavior.hangs o e) :
    (env.execute code sem).1.success = false ∧
    (env.execute code sem).1.error = some timeoutMsg ∧
    (env.execute code sem).2.globals = env.globals := by
  rw [execute_hangs env code sem h1 h2 h3]
  exact ⟨rfl, rfl, rfl⟩

theorem C4_timeout_frame_witness :
    (demoEnv.execute "while True: pass" hangSem).1.success = false ∧
    (demoEnv.execute "while True: pass" hangSem).1.error = some timeoutMsg ∧
    (demoEnv.execute "while True: pass" hangSem).2.globals = demoEnv.globals :=
  C4_timeout_frame demoEnv "while True: pass" hangSem
    "text printed before the kill" "" (by decide) (by decide) rfl

/-- C5: a submission that raises yields success=false with a non-empty error
carrying the exception's type name and message, the stdout/stderr captured up
to the failure are still returned (combined and truncated as usual), and the
session namespace is exactly as before the call — nothing bound by the failed
submission persists. -/
theorem C5_runtime_error (env : REPLEnvironment) (code : String) (sem : CodeSem)
    (etype emsg out err : String)
    (h1 : env.execution_count < MAX_EXECUTIONS_PER_SESSION)
    (h2 : sanitize code ≠ "")
    (h3 : sem (workerSeed env) = ExecBehavior.raised etype emsg out err) :
    (env.execute code sem).1.success = false ∧
    (env.execute code sem).1.error = some (etype ++ ": " ++ emsg) ∧
    0 < (etype ++ ": " ++ emsg).length ∧
    (env.execute code sem).1.output = truncateOutput (combineOut out err) ∧
    (env.execute code sem).2.globals = env.globals := by
  rw [execute_raised env code sem h1 h2 h3]
  refine ⟨rfl, rfl, ?_, rfl, rfl⟩
  rw [String.length_append, String.length_append]
  have hc : 0 < (": " : String).length := by decide
  omega

theorem C5_runtime_error_witness :
    (demoEnv.execute "raise ValueError(x)" raiseSem).1.success = false ∧
    (demoEnv.execute "raise ValueError(x)" raiseSem).1.error =
      some ("ValueError" ++ ": " ++ "bad value") ∧
    0 < (("ValueError" ++ ": " ++ "bad value") : String).length ∧
    (demoEnv.execute "raise ValueError(x)" raiseSem).1.output =
      truncateOutput (combineOut "printed before the raise" "") ∧
    (demoEnv.execute "raise ValueError(x)" raiseSem).2.globals = demoEnv.globals :=
  C5_runtime_error demoEnv "raise ValueError(x)" raiseSem
    "ValueError" "bad value" "printed before the raise" ""
    (by decide) (by decide) rfl

/-- C6: a submission that is empty after sanitization returns an immediate
success with the fixed "(empty code)" marker, still increments the session's
execution counter, and consults the submission's execution semantics not at
all (no worker is spawned: the result is the same for every semantics). -/
theorem C6_empty_submission (env : REPLEnvironment) (code : String)
    (sem : CodeSem)
    (h1 : env.execution_count < MAX_EXECUTIONS_PER_SESSION)
    (h2 : sanitize code = "") :
    env.execute code sem =
      ({ output := "(empty code)", success := true, error := none },
       { env with execution_count := env.execution_count + 1 }) ∧
    ∀ sem2 : CodeSem, env.execute code sem2 = env.execute code sem := by
  refine ⟨execute_empty env code sem h1 h2, fun sem2 => ?_⟩
  rw [execute_empty env code sem h1 h2, execute_empty env code sem2 h1 h2]

theorem C6_empty_submission_witness :
    demoEnv.execute "<tool></tool>" okSemX =
      ({ output := "(empty code)", success := true, error := none },
       { demoEnv with execution_count := demoEnv.execution_count + 1 }) :=
  (C6_empty_submission demoEnv "<tool></tool>" okSemX (by decide) (by decide)).1

/-- C7: the tracked reset count never exceeds `MAX_SESSION_RESETS`; a reset at
the quota is refused with the fixed message and changes nothing; below the
quota, reset reports success, bumps the tracked count by one, and discards the
session state; and the count lives in `session_reset_counts`, untouched by the
session replacement performed on load — it survives deletion/replacement of
the `SessionState`. -/
theorem C7_reset_quota (st : ServerState) (sid : String)
    (content contentLen filePath : PyVal)
    (hnd : (alKeys st.repl_sessions).Nodup) :
    (MAX_SESSION_RESETS ≤ resetCountOf st sid →
      resetSessionTool st sid = (resetLimitMsg sid, st)) ∧
    (resetCountOf st sid < MAX_SESSION_RESETS →
      (resetSessionTool st sid).1 = resetOkMsg sid (resetCountOf st sid + 1) ∧
      resetCountOf (resetSessionTool st sid).2 sid = resetCountOf st sid + 1 ∧
      alGet? (resetSessionTool st sid).2.repl_sessions sid = none) ∧
    (∀ (sids : List String) (s : String),
      resetCountOf (runResets initialServerState sids) s ≤ MAX_SESSION_RESETS) ∧
    (loadFileReplace st sid content contentLen filePath).session_reset_counts =
      st.session_reset_counts := by
  refine ⟨fun h => resetSessionTool_at_quota st sid h, fun h => ?_, fun sids s => ?_, rfl⟩
  · rw [resetSessionTool_ok st sid h]
    refine ⟨rfl, ?_, ?_⟩
    · show (alGet? (alSet st.session_reset_counts sid (resetCountOf st sid + 1)) sid).getD 0
        = resetCountOf st sid + 1
      rw [alGet?_alSet_self]
      rfl
    · exact alGet?_alDel_self hnd
  · exact runResets_le sids initialServerState (fun s2 => Nat.zero_le _) s

theorem C7_reset_quota_witness :
    resetSessionTool stAtLimit "default" = (resetLimitMsg "default", stAtLimit) ∧
    (resetSessionTool st0 "default").1 = resetOkMsg "default" 1 ∧
    resetCountOf (resetSessionTool st0 "default").2 "default" = 1 ∧
    alGet? (resetSessionTool st0 "default").2.repl_sessions "default" = none := by
  have ha := C7_reset_quota stAtLimit "default" demoCtx demoCtx demoCtx (by decide)
  have hb := C7_reset_quota st0 "default" demoCtx demoCtx demoCtx (by decide)
  have hbo := hb.2.1 (by decide)
  exact ⟨ha.1 (by decide), hbo.1, hbo.2.1, hbo.2.2⟩

/-- C8: a serializable, non-callable variable bound by a successful execution
is merged into the session namespace and is part of the transferable namespace
(`picklable_globals`) seeded into the worker of a subsequent call on the same
session — variables round-trip across calls without re-binding. -/
theorem C8_roundtrip (env : REPLEnvironment) (code : String) (sem : CodeSem)
    (finals : PyDict) (out err : String) (k : String) (v : PyVal)
    (h1 : env.execution_count < MAX_EXECUTIONS_PER_SESSION)
    (h2 : sanitize code ≠ "")
    (h3 : sem (workerSeed env) = ExecBehavior.ok finals out err)
    (hpick : (snapshotOf finals).all (fun kv => kv.2.picklable) = true)
    (hnd : (alKeys (snapshotOf finals)).Nodup)
    (hk : alGet? (snapshotOf finals) k = some v)
    (hb : k ≠ "__builtins__") :
    alGet? (env.execute code sem).2.globals k = some v ∧
    alGet? (picklableGlobals (env.execute code sem).2.globals) k = some v := by
  rw [execute_ok_delivered env code sem h1 h2 h3 hpick]
  have hmem : alGet? (mergeVars env.globals (snapshotOf finals)) k = some v :=
    mergeVars_lookup hnd hk hb env.globals
  have hvp : v.picklable = true := by
    have hall := List.all_eq_true.mp hpick (k, v) (alGet?_mem hk)
    simpa using hall
  refine ⟨hmem, ?_⟩
  show alGet? ((mergeVars env.globals (snapshotOf finals)).filter
    (fun kv => kv.1 != "__builtins__" && kv.2.picklable)) k = some v
  apply alGet?_filter _ hmem
  simp [hb, hvp]

theorem C8_roundtrip_witness :
    alGet? (demoEnv.execute "x = 42" okSemX).2.globals "x" = some intVal ∧
    alGet? (picklableGlobals (demoEnv.execute "x = 42" okSemX).2.globals) "x" =
      some intVal :=
  C8_roundtrip demoEnv "x = 42" okSemX [("x", intVal)] "" "" "x" intVal
    (by decide) (by decide) rfl rfl (by decide) (by decide) (by decide)

/-- C9: resetting a session identifier that has no live session state still
reports success (the success message with the bumped count) and still consumes
one unit of that identifier's reset quota. -/
theorem C9_reset_absent (st : ServerState) (sid : String)
    (habs : alGet? st.repl_sessions sid = none)
    (hq : resetCountOf st sid < MAX_SESSION_RESETS) :
    (resetSessionTool st sid).1 = resetOkMsg sid (resetCountOf st sid + 1) ∧
    resetCountOf (resetSessionTool st sid).2 sid = resetCountOf st sid + 1 := by
  rw [resetSessionTool_ok st sid hq]
  refine ⟨rfl, ?_⟩
  show (alGet? (alSet st.session_reset_counts sid (resetCountOf st sid + 1)) sid).getD 0
    = resetCountOf st sid + 1
  rw [alGet?_alSet_self]
  rfl

theorem C9_reset_absent_witness :
    (resetSessionTool stNoSession "s").1 = resetOkMsg "s" 2 ∧
    resetCountOf (resetSessionTool stNoSession "s").2 "s" = 2 :=
  C9_reset_absent stNoSession "s" rfl (by decide)

/-- C10: a run that ends in a timeout kill returns the empty string as output
— the text the code printed before being killed (carried by the `hangs`
behaviour) is discarded entirely, not returned truncated or partial. -/
theorem C10_timeout_output (env : REPLEnvironment) (code : String)
    (sem : CodeSem) (o e : String)
    (h1 : env.execution_count < MAX_EXECUTIONS_PER_SESSION)
    (h2 : sanitize code ≠ "")
    (h3 : sem (workerSeed env) = ExecBehavior.hangs o e) :
    (env.execute code sem).1.output = "" := by
  rw [execute_hangs env code sem h1 h2 h3]

theorem C10_timeout_output_witness :
    (demoEnv.execute "print(1)\nwhile True: pass" hangSem).1.output = "" :=
  C10_timeout_output demoEnv "print(1)\nwhile True: pass" hangSem
    "text printed before the kill" "" (by decide) (by decide) rfl
